import Mathlib

/-!
Shallow embedding of TheBeatBakery pattern-sequencer UI logic.

The state management of the route component (`App`) is modelled as a record
`AppState` with pure transition functions; calls into the external Strudel
engine (`s`, `.play()`, `.stop()`, `hush`) and user-facing alerts are
recorded in an explicit effect trace.  The engine itself is a parameter
(`Engine`): `compileOk text` says whether `s(text)` (followed by `.gain`)
succeeds, and `playOk pat` says whether `pat.play()` succeeds; in the
JavaScript source a failure is a thrown exception that the code catches.

The canvas routine `drawCustomVisualization` of the Punchcard component is
modelled as a function producing a list of draw commands; JavaScript numbers
are modelled as rationals and the JavaScript `%` operator as truncating
modulo `jsMod`.
-/

/-- A pattern entry as in the `PatternInput` interface of the source:
`{ id: string, pattern: string, name: string }`. -/
structure PatternInput where
  id : String
  pattern : String
  name : String
deriving DecidableEq, Repr

instance : Inhabited PatternInput := ⟨⟨"", "", ""⟩⟩

/-- The compiled pattern handle returned by `s(text).gain(volume)`:
opaque to the app, characterised by the compiled source text and the gain
scalar that was applied. -/
structure CompiledPattern where
  source : String
  gainVal : ℚ
deriving DecidableEq, Repr

/-- The external Strudel engine, as observed through the two calls that can
throw inside the component: compiling a text (the body of the `try` in
`createAndPlayPattern`) and playing a compiled pattern (the `pattern.play()`
call in `playAll`). -/
structure Engine where
  compileOk : String → Bool
  playOk : CompiledPattern → Bool

/-- The React state of the `App` component: `patterns`, `volume` (the single
slider value `volume[0]`), `nextId`, `isPlaying`, `combinedPattern`. -/
structure AppState where
  patterns : List PatternInput
  volume : ℚ
  nextId : ℕ
  isPlaying : Bool
  combinedPattern : Option CompiledPattern
deriving DecidableEq, Repr

/-- Observable side effects of the handlers: external engine calls, alerts
and React state-setter calls for the playback flags. -/
inductive Effect where
  | compileCall (text : String)
  | playCall (pat : CompiledPattern)
  | stopCall (pat : CompiledPattern)
  | hushCall
  | alertMsg (msg : String)
  | setPlaying (b : Bool)
  | setCombined (pat : Option CompiledPattern)
deriving DecidableEq, Repr

/-- `patternsRef.current.filter(p => p.pattern.trim())`: the entries whose
pattern text is non-empty after trimming. -/
def validPatternsOf (ps : List PatternInput) : List PatternInput :=
  ps.filter (fun p => p.pattern.trim != "")

/-- The text handed to the external compiler `s`: the single entry's text
when exactly one entry is valid, otherwise the texts joined with `", "`
(`patternStrings.join(', ')`). -/
def combinedText (valid : List PatternInput) : String :=
  if valid.length = 1 then (valid.headI).pattern
  else String.intercalate ", " (valid.map (fun p => p.pattern))

/-- `createAndPlayPattern`: filters valid patterns, returns `null` when there
are none, otherwise compiles the combined text and applies the gain; a
compile error is caught and turned into a `null` result. -/
def createAndPlayPattern (eng : Engine) (st : AppState) :
    Option CompiledPattern × List Effect :=
  let valid := validPatternsOf st.patterns
  if valid.length = 0 then (none, [])
  else
    let text := combinedText valid
    if eng.compileOk text then
      (some ⟨text, st.volume⟩, [Effect.compileCall text])
    else
      (none, [Effect.compileCall text])

/-- `playAll`: asks `createAndPlayPattern` for a pattern; alerts when it got
`null`; otherwise plays it and, on success, stores it and sets the playing
flag; a play error is caught and reported by alert, leaving state as it was. -/
def playAll (eng : Engine) (st : AppState) : AppState × List Effect :=
  match createAndPlayPattern eng st with
  | (none, tr) => (st, tr ++ [Effect.alertMsg "No valid patterns to play"])
  | (some pat, tr) =>
    if eng.playOk pat then
      ({ st with combinedPattern := some pat, isPlaying := true },
       tr ++ [Effect.playCall pat, Effect.setCombined (some pat),
              Effect.setPlaying true])
    else
      (st, tr ++ [Effect.playCall pat,
                  Effect.alertMsg "Error playing patterns. Please check your syntax."])

/-- `stopAll`: best-effort `combinedPattern.stop?.()` when a pattern is held,
then `hush()`, then clears `isPlaying` and `combinedPattern`. -/
def stopAll (st : AppState) : AppState × List Effect :=
  let tr0 : List Effect :=
    match st.combinedPattern with
    | some p => [Effect.stopCall p]
    | none => []
  ({ st with isPlaying := false, combinedPattern := none },
   tr0 ++ [Effect.hushCall, Effect.setPlaying false, Effect.setCombined none])

/-- `addPattern`: appends a fresh entry with id `nextId.toString()`, empty
pattern text and name `Pattern ${nextId}`, and increments `nextId`. -/
def addPattern (st : AppState) : AppState :=
  let newPattern : PatternInput :=
    ⟨toString st.nextId, "", "Pattern " ++ toString st.nextId⟩
  { st with patterns := st.patterns ++ [newPattern], nextId := st.nextId + 1 }

/-- `removePattern`: stops everything first when playing, then filters the
entry with the given id out of the list captured by the handler. -/
def removePattern (st : AppState) (id : String) : AppState × List Effect :=
  let pr := if st.isPlaying then stopAll st else (st, [])
  ({ pr.1 with patterns := st.patterns.filter (fun p => p.id != id) }, pr.2)

/-- The fields of `PatternInput` addressable by `updatePattern`
(`keyof PatternInput`). -/
inductive PatternField where
  | id
  | pattern
  | name
deriving DecidableEq, Repr

/-- `{ ...p, [field]: value }`. -/
def setField (p : PatternInput) : PatternField → String → PatternInput
  | PatternField.id, v => { p with id := v }
  | PatternField.pattern, v => { p with pattern := v }
  | PatternField.name, v => { p with name := v }

/-- `updatePattern`: replaces the matching entry's field, preserving others. -/
def updatePattern (st : AppState) (id : String) (field : PatternField)
    (value : String) : AppState :=
  { st with patterns :=
      st.patterns.map (fun p => if p.id = id then setField p field value else p) }

/-- `setVolume` from the slider. -/
def setVolume (st : AppState) (v : ℚ) : AppState := { st with volume := v }

/-- The initial React state: two preset patterns, volume `0.7`, `nextId 3`,
not playing, no compiled pattern. -/
def initialAppState : AppState :=
  ⟨[⟨"1", "bd sd [~ bd] sd", "Kick & Snare"⟩, ⟨"2", "hh*8", "Hi-hats"⟩],
   7/10, 3, false, none⟩

/-- Whether this invocation of `playAll` reaches the successful branch:
`createAndPlayPattern` produced a pattern and `play()` did not throw. -/
def playSucceeds (eng : Engine) (st : AppState) : Bool :=
  match (createAndPlayPattern eng st).1 with
  | some pat => eng.playOk pat
  | none => false

/-- One UI callback dispatch. -/
inductive Step where
  | play (eng : Engine)
  | stop
  | add
  | remove (id : String)
  | update (id : String) (f : PatternField) (v : String)
  | vol (v : ℚ)

/-- Apply one UI callback to the state. -/
def applyStep (st : AppState) : Step → AppState
  | Step.play eng => (playAll eng st).1
  | Step.stop => (stopAll st).1
  | Step.add => addPattern st
  | Step.remove id => (removePattern st id).1
  | Step.update id f v => updatePattern st id f v
  | Step.vol v => setVolume st v

/-- States reachable from the initial state by UI callbacks. -/
inductive Reachable : AppState → Prop where
  | init : Reachable initialAppState
  | step {st : AppState} (σ : Step) : Reachable st → Reachable (applyStep st σ)

/-- Truncation of a rational toward zero, as JavaScript number division
truncates in `a - b * Math.trunc(a / b)`. -/
def ratTrunc (q : ℚ) : ℤ := Int.tdiv q.num (q.den : ℤ)

/-- The JavaScript `%` operator on numbers: remainder with the sign of the
dividend, `a - b * trunc(a / b)`. -/
def jsMod (a b : ℚ) : ℚ := a - b * (ratTrunc (a / b) : ℚ)

/-- A visualization event (`PunchcardData`): `{time, value, name?}`. -/
structure PunchcardData where
  time : ℚ
  value : String
  name : Option String := none
deriving DecidableEq, Repr

/-- Draw commands emitted by `drawCustomVisualization`, one per canvas
primitive it issues. -/
inductive DrawCmd where
  | noDataText (x y : ℚ)
  | sampleBar (i : ℕ) (x y bw bh : ℚ)
  | gridLine (x : ℚ)
  | subdivLine (x : ℚ)
  | trackBg (idx : ℕ) (y : ℚ)
  | trackLabel (instrument : String) (y : ℚ)
  | eventRect (instrument : String) (color : String) (t x y bw bh : ℚ)
      (active : Bool)
  | playheadLine (x : ℚ)
  | playheadTriangle (x : ℚ)
deriving DecidableEq, Repr

/-- `[...new Set(l)]`: de-duplication keeping first occurrences in order. -/
def firstDedup (l : List String) : List String :=
  l.foldl (fun acc a => if a ∈ acc then acc else acc ++ [a]) []

/-- The fixed color palette of the visualizer. -/
def colors : List String :=
  ["#8b5cf6", "#06b6d4", "#10b981", "#f59e0b", "#ef4444", "#ec4899"]

/-- The active-highlight predicate of the visualizer:
`isPlaying && Math.abs((time % beatsVisible) - (event.time % beatsVisible)) < 0.1`
with `beatsVisible = 4`. -/
def isActive (playing : Bool) (time eventTime : ℚ) : Bool :=
  playing && decide (|jsMod time 4 - jsMod eventTime 4| < (1 : ℚ)/10)

/-- `drawCustomVisualization(ctx, eventData, time, width, height)` with the
component's `isPlaying` captured from the closure: the sequence of canvas
primitives it draws. -/
def drawCustomVisualization (isPlaying : Bool) (eventData : List PunchcardData)
    (time w h : ℚ) : List DrawCmd :=
  if eventData.length = 0 then
    [DrawCmd.noDataText (w/2) (h/2)] ++
      (List.range 4).map (fun i =>
        DrawCmd.sampleBar i ((i : ℚ) * (w/4) + 10) (h * (7/10)) (w/4 - 20) 20)
  else
    let instruments := firstDedup (eventData.map (fun d => d.value))
    let trackHeight : ℚ := max 40 (h / (max instruments.length 1 : ℕ))
    let beatsVisible : ℚ := 4
    let timeScale := w / beatsVisible
    let gridCmds := (List.range 5).map (fun i =>
      DrawCmd.gridLine ((i : ℚ) * (w / beatsVisible)))
    let subdivCmds := (List.range 16).map (fun i =>
      DrawCmd.subdivLine ((i : ℚ) * (w / (beatsVisible * 4))))
    let trackCmds := instruments.enum.flatMap (fun pr =>
      let idx := pr.1
      let instrument := pr.2
      let y := (idx : ℚ) * trackHeight
      let color := colors.getD (idx % colors.length) ""
      [DrawCmd.trackBg idx y, DrawCmd.trackLabel instrument (y + 25)] ++
        (eventData.filter (fun e => e.value == instrument)).map (fun e =>
          let x := jsMod e.time beatsVisible * timeScale
          let eventWidth := max 12 (timeScale / 8)
          let eventHeight := trackHeight * (1/2)
          DrawCmd.eventRect instrument color e.time x (y + trackHeight * (3/10))
            eventWidth eventHeight (isActive isPlaying time e.time)))
    let playheadCmds :=
      if isPlaying then
        let currentX := jsMod time beatsVisible * timeScale
        [DrawCmd.playheadLine currentX, DrawCmd.playheadTriangle currentX]
      else []
    gridCmds ++ subdivCmds ++ trackCmds ++ playheadCmds

/-- Classifier for sample-bar commands. -/
def isSampleBar : DrawCmd → Bool
  | DrawCmd.sampleBar .. => true
  | _ => false

/-- Classifier for the no-data placeholder text command. -/
def isNoDataText : DrawCmd → Bool
  | DrawCmd.noDataText .. => true
  | _ => false

/-- Classifier for event rectangles. -/
def isEventRect : DrawCmd → Bool
  | DrawCmd.eventRect .. => true
  | _ => false

/-- Classifier for the playhead commands. -/
def isPlayhead : DrawCmd → Bool
  | DrawCmd.playheadLine .. => true
  | DrawCmd.playheadTriangle .. => true
  | _ => false

/-- Classifier for track backgrounds and labels. -/
def isTrackCmd : DrawCmd → Bool
  | DrawCmd.trackBg .. => true
  | DrawCmd.trackLabel .. => true
  | _ => false

/-- Classifier for the `setIsPlaying(true)` transition effect. -/
def isSetPlayingTrue : Effect → Bool
  | Effect.setPlaying true => true
  | _ => false

/-- An engine on which every compile and every play succeeds. -/
def engAllOk : Engine := ⟨fun _ => true, fun _ => true⟩

/-- An engine on which `s(...)` always throws. -/
def engCompileFail : Engine := ⟨fun _ => false, fun _ => true⟩

/-- An engine on which `s(...)` succeeds but `.play()` always throws. -/
def engPlayFail : Engine := ⟨fun _ => true, fun _ => false⟩

/-- A state whose only pattern entry is whitespace. -/
def stBlankPatterns : AppState := ⟨[⟨"1", " ", "Blank"⟩], 7/10, 2, false, none⟩

/-- A state in which playback is active on a compiled pattern. -/
def stActivePlayback : AppState :=
  ⟨[⟨"1", "bd", "Kick"⟩], 7/10, 2, true, some ⟨"bd", 7/10⟩⟩

lemma validPatternsOf_eq_nil {ps : List PatternInput}
    (h : ∀ p ∈ ps, p.pattern.trim = "") : validPatternsOf ps = [] := by
  rw [validPatternsOf, List.filter_eq_nil_iff]
  intro p hp
  simp [h p hp]

/-- C2: invoking `playAll` on a pattern list in which no entry has non-empty
(trimmed) text leaves the whole state unchanged, emits only the refusal
alert, and never calls the external compiler `s`. -/
theorem playAll_no_valid_noop (eng : Engine) (st : AppState)
    (h : ∀ p ∈ st.patterns, p.pattern.trim = "") :
    (playAll eng st).1 = st ∧
    (playAll eng st).2 = [Effect.alertMsg "No valid patterns to play"] ∧
    ∀ t, Effect.compileCall t ∉ (playAll eng st).2 := by
  have hv : validPatternsOf st.patterns = [] := validPatternsOf_eq_nil h
  have hcp : createAndPlayPattern eng st = (none, []) := by
    simp [createAndPlayPattern, hv]
  refine ⟨?_, ?_, ?_⟩ <;> simp [playAll, hcp]

/-- Witness for C2 at a concrete whitespace-only pattern list. -/
theorem playAll_no_valid_noop_w :
    (playAll engAllOk stBlankPatterns).1 = stBlankPatterns :=
  (playAll_no_valid_noop engAllOk stBlankPatterns
    (by with_unfolding_all decide)).1

/-- C5: `stopAll` performs the per-pattern stop exactly when a compiled
pattern is held, then `hush()`, then clears `isPlaying` and
`combinedPattern` while leaving the rest of the state alone, and invoking it
twice in a row yields the same state as invoking it once. -/
theorem stopAll_stops_and_idempotent (st : AppState) :
    (stopAll st).1.isPlaying = false ∧
    (stopAll st).1.combinedPattern = none ∧
    (stopAll st).1.patterns = st.patterns ∧
    (stopAll st).1.volume = st.volume ∧
    (stopAll st).1.nextId = st.nextId ∧
    (∀ p, st.combinedPattern = some p →
      (stopAll st).2 = [Effect.stopCall p, Effect.hushCall,
        Effect.setPlaying false, Effect.setCombined none]) ∧
    (st.combinedPattern = none →
      (stopAll st).2 = [Effect.hushCall, Effect.setPlaying false,
        Effect.setCombined none]) ∧
    (stopAll (stopAll st).1).1 = (stopAll st).1 := by
  refine ⟨rfl, rfl, rfl, rfl, rfl, ?_, ?_, ?_⟩
  · intro p hp
    simp [stopAll, hp]
  · intro hp
    simp [stopAll, hp]
  · rfl

/-- Witness for C5 at a concrete state holding a compiled pattern. -/
theorem stopAll_stops_and_idempotent_w :
    (stopAll stActivePlayback).2 =
      [Effect.stopCall ⟨"bd", 7/10⟩, Effect.hushCall,
       Effect.setPlaying false, Effect.setCombined none] :=
  (stopAll_stops_and_idempotent stActivePlayback).2.2.2.2.2.1 ⟨"bd", 7/10⟩ rfl

/-- C6: removing a pattern while playback is active first performs the stop
sequence (the resulting state is stopped with no session pattern, and the
emitted effects are exactly those of `stopAll`), and the entry with the
given id is filtered out of the list. -/
theorem removePattern_active_stops_first (st : AppState) (pid : String)
    (h : st.isPlaying = true) :
    ((removePattern st pid).1).isPlaying = false ∧
    ((removePattern st pid).1).combinedPattern = none ∧
    ((removePattern st pid).1).patterns =
      st.patterns.filter (fun p => p.id != pid) ∧
    (removePattern st pid).2 = (stopAll st).2 := by
  refine ⟨?_, ?_, rfl, ?_⟩ <;> simp [removePattern, h, stopAll]

/-- Witness for C6 at a concrete playing state, removing the active entry. -/
theorem removePattern_active_stops_first_w :
    ((removePattern stActivePlayback "1").1).isPlaying = false :=
  (removePattern_active_stops_first stActivePlayback "1" rfl).1

/-- A state in which an existing entry already carries the id that the next
`addPattern` will generate. -/
def stIdClash : AppState := ⟨[⟨"3", "bd", "Kick"⟩], 7/10, 3, false, none⟩

/-- C7 counterexample: when an existing entry already has id
`nextId.toString()`, adding a pattern and removing the newly created entry's
id also removes the pre-existing entry, so the list is not restored. -/
theorem addRemove_roundtrip_cex :
    ((removePattern (addPattern stIdClash) (toString stIdClash.nextId)).1).patterns
      ≠ stIdClash.patterns := by
  with_unfolding_all decide

/-- C7 amended: provided no existing entry already has the id that
`addPattern` will generate (true in every state the UI reaches, since ids
are generated from the strictly increasing `nextId` counter), adding a
pattern and then removing the newly created entry's id restores the pattern
list to its prior content and ordering. -/
theorem addRemove_roundtrip (st : AppState)
    (h : ∀ p ∈ st.patterns, p.id ≠ toString st.nextId) :
    ((removePattern (addPattern st) (toString st.nextId)).1).patterns
      = st.patterns := by
  have hstep :
      ((removePattern (addPattern st) (toString st.nextId)).1).patterns
        = (st.patterns ++
            [(⟨toString st.nextId, "", "Pattern " ++ toString st.nextId⟩ :
              PatternInput)]).filter
            (fun p => p.id != toString st.nextId) := rfl
  rw [hstep, List.filter_append]
  have hone :
      ([(⟨toString st.nextId, "", "Pattern " ++ toString st.nextId⟩ :
          PatternInput)]).filter (fun p => p.id != toString st.nextId)
        = [] := by
    simp
  rw [hone, List.append_nil]
  apply List.filter_eq_self.mpr
  intro p hp
  simpa using h p hp

/-- Witness for the amended C7 at the initial state. -/
theorem addRemove_roundtrip_w :
    ((removePattern (addPattern initialAppState)
        (toString initialAppState.nextId)).1).patterns
      = initialAppState.patterns :=
  addRemove_roundtrip initialAppState (by with_unfolding_all decide)

/-- C10: in every state reachable from the initial state through the UI
callbacks (play with an arbitrary engine, stop, add, remove, update,
volume), a raised `isPlaying` flag implies a non-null `combinedPattern`:
`playAll` sets the handle together with the flag and sets neither on
failure, `stopAll` clears both together, and no other operation raises the
flag. -/
theorem reachable_playing_has_pattern (st : AppState) (h : Reachable st)
    (hp : st.isPlaying = true) : st.combinedPattern ≠ none := by
  induction h with
  | init => simp [initialAppState] at hp
  | @step st' σ _ ih =>
    cases σ with
    | play eng =>
      rcases hc : createAndPlayPattern eng st' with ⟨op, tr⟩
      cases op with
      | none =>
        simp only [applyStep, playAll, hc] at hp ⊢
        exact ih hp
      | some pat =>
        cases hpl : eng.playOk pat with
        | true =>
          simp only [applyStep, playAll, hc, hpl] at hp ⊢
          simp
        | false =>
          simp only [applyStep, playAll, hc, hpl] at hp ⊢
          exact ih hp
    | stop => simp [applyStep, stopAll] at hp
    | add =>
      simp only [applyStep, addPattern] at hp ⊢
      exact ih hp
    | remove pid =>
      cases hb : st'.isPlaying with
      | true => simp [applyStep, removePattern, hb, stopAll] at hp
      | false => simp [applyStep, removePattern, hb] at hp
    | update pid f v =>
      simp only [applyStep, updatePattern] at hp ⊢
      exact ih hp
    | vol v =>
      simp only [applyStep, setVolume] at hp ⊢
      exact ih hp

/-- Witness for C10: after one successful play from the initial state the
state is reachable, playing, and holds a compiled pattern. -/
theorem reachable_playing_has_pattern_w :
    (applyStep initialAppState (Step.play engAllOk)).combinedPattern ≠ none :=
  reachable_playing_has_pattern _
    (Reachable.step (Step.play engAllOk) Reachable.init)
    (by with_unfolding_all decide)

/-- C1 counterexample: the initial state has a non-empty pattern entry and
is stopped, yet when the external compiler throws, `playAll` does not
transition the status flag to playing. -/
theorem playAll_transition_cex :
    (validPatternsOf initialAppState.patterns ≠ [] ∧
     initialAppState.isPlaying = false) ∧
    (playAll engCompileFail initialAppState).1.isPlaying = false := by
  with_unfolding_all decide

/-- C1 amended: for every pattern list with at least one non-empty entry and
playback stopped, `playAll` never throws to the caller (it always returns a
state, with every compile or play error turned into an alert effect), and it
transitions the status flag from stopped to playing exactly once when the
compile and play calls succeed, and zero times otherwise, leaving the state
unchanged in that case. -/
theorem playAll_transitions (eng : Engine) (st : AppState)
    (h0 : st.isPlaying = false) (hv : validPatternsOf st.patterns ≠ []) :
    ((playAll eng st).1.isPlaying = true ↔ playSucceeds eng st = true) ∧
    ((playAll eng st).2.countP isSetPlayingTrue =
      if playSucceeds eng st then 1 else 0) ∧
    (playSucceeds eng st = false →
      (playAll eng st).1 = st ∧
      ∃ m, Effect.alertMsg m ∈ (playAll eng st).2) := by
  have hlen : ¬ (validPatternsOf st.patterns).length = 0 := by
    simpa using hv
  cases hck : eng.compileOk (combinedText (validPatternsOf st.patterns)) with
  | false =>
    have hcp : createAndPlayPattern eng st =
        (none, [Effect.compileCall (combinedText (validPatternsOf st.patterns))]) := by
      simp [createAndPlayPattern, hlen, hck]
    have hps : playSucceeds eng st = false := by
      simp [playSucceeds, hcp]
    refine ⟨?_, ?_, ?_⟩
    · simp [playAll, hcp, h0, hps]
    · simp [playAll, hcp, hps, List.countP_cons, isSetPlayingTrue]
    · intro _
      exact ⟨by simp [playAll, hcp], ⟨"No valid patterns to play", by simp [playAll, hcp]⟩⟩
  | true =>
    have hcp : createAndPlayPattern eng st =
        (some ⟨combinedText (validPatternsOf st.patterns), st.volume⟩,
         [Effect.compileCall (combinedText (validPatternsOf st.patterns))]) := by
      simp [createAndPlayPattern, hlen, hck]
    cases hpk : eng.playOk ⟨combinedText (validPatternsOf st.patterns), st.volume⟩ with
    | true =>
      have hps : playSucceeds eng st = true := by
        simp [playSucceeds, hcp, hpk]
      refine ⟨?_, ?_, ?_⟩
      · simp [playAll, hcp, hpk, hps]
      · simp [playAll, hcp, hpk, hps, List.countP_cons, isSetPlayingTrue]
      · intro hcontra
        rw [hps] at hcontra
        exact absurd hcontra (by simp)
    | false =>
      have hps : playSucceeds eng st = false := by
        simp [playSucceeds, hcp, hpk]
      refine ⟨?_, ?_, ?_⟩
      · simp [playAll, hcp, hpk, h0, hps]
      · simp [playAll, hcp, hpk, hps, List.countP_cons, isSetPlayingTrue]
      · intro _
        refine ⟨by simp [playAll, hcp, hpk], ?_⟩
        exact ⟨"Error playing patterns. Please check your syntax.",
          by simp [playAll, hcp, hpk]⟩

/-- Witness for the amended C1 at the initial state with a play-failing
engine: the state is unchanged and an alert was emitted. -/
theorem playAll_transitions_w :
    (playAll engPlayFail initialAppState).1 = initialAppState ∧
    ∃ m, Effect.alertMsg m ∈ (playAll engPlayFail initialAppState).2 :=
  (playAll_transitions engPlayFail initialAppState rfl
    (by with_unfolding_all decide)).2.2 (by with_unfolding_all decide)

/-- C3: when the external compiler or the player raises an error during
`playAll`, the error is caught and reported as a user-facing alert, and the
session state is unchanged: `isPlaying` remains false and `combinedPattern`
remains null. -/
theorem playAll_error_reported (eng : Engine) (st : AppState)
    (h0 : st.isPlaying = false) (h1 : st.combinedPattern = none)
    (hv : validPatternsOf st.patterns ≠ [])
    (herr : eng.compileOk (combinedText (validPatternsOf st.patterns)) = false ∨
      eng.playOk ⟨combinedText (validPatternsOf st.patterns), st.volume⟩ = false) :
    (playAll eng st).1 = st ∧
    (playAll eng st).1.isPlaying = false ∧
    (playAll eng st).1.combinedPattern = none ∧
    ∃ m, Effect.alertMsg m ∈ (playAll eng st).2 := by
  have hlen : ¬ (validPatternsOf st.patterns).length = 0 := by
    simpa using hv
  cases hck : eng.compileOk (combinedText (validPatternsOf st.patterns)) with
  | false =>
    have hcp : createAndPlayPattern eng st =
        (none, [Effect.compileCall (combinedText (validPatternsOf st.patterns))]) := by
      simp [createAndPlayPattern, hlen, hck]
    refine ⟨by simp [playAll, hcp], by simp [playAll, hcp, h0],
      by simp [playAll, hcp, h1],
      ⟨"No valid patterns to play", by simp [playAll, hcp]⟩⟩
  | true =>
    have hcp : createAndPlayPattern eng st =
        (some ⟨combinedText (validPatternsOf st.patterns), st.volume⟩,
         [Effect.compileCall (combinedText (validPatternsOf st.patterns))]) := by
      simp [createAndPlayPattern, hlen, hck]
    have hpk : eng.playOk ⟨combinedText (validPatternsOf st.patterns), st.volume⟩ = false := by
      rcases herr with hck2 | hpk2
      · rw [hck] at hck2
        exact absurd hck2 (by simp)
      · exact hpk2
    refine ⟨by simp [playAll, hcp, hpk], by simp [playAll, hcp, hpk, h0],
      by simp [playAll, hcp, hpk, h1],
      ⟨"Error playing patterns. Please check your syntax.",
        by simp [playAll, hcp, hpk]⟩⟩

/-- Witness for C3 at the initial state with a compile-failing engine. -/
theorem playAll_error_reported_w :
    (playAll engCompileFail initialAppState).1 = initialAppState ∧
    (playAll engCompileFail initialAppState).1.isPlaying = false ∧
    (playAll engCompileFail initialAppState).1.combinedPattern = none ∧
    ∃ m, Effect.alertMsg m ∈ (playAll engCompileFail initialAppState).2 :=
  playAll_error_reported engCompileFail initialAppState rfl rfl
    (by with_unfolding_all decide) (Or.inl rfl)

/-- C4: the combiner hands the external compiler exactly the single entry's
text when one entry is valid, and the `", "`-joined concatenation of all
valid texts in list order when two or more are; the compiled pattern carries
the master gain scalar (the current volume) applied before it is returned. -/
theorem createAndPlayPattern_combines (eng : Engine) (st : AppState)
    (hv : validPatternsOf st.patterns ≠ []) :
    (∀ v, validPatternsOf st.patterns = [v] →
      combinedText (validPatternsOf st.patterns) = v.pattern) ∧
    (2 ≤ (validPatternsOf st.patterns).length →
      combinedText (validPatternsOf st.patterns) =
        String.intercalate ", "
          ((validPatternsOf st.patterns).map (fun p => p.pattern))) ∧
    Effect.compileCall (combinedText (validPatternsOf st.patterns)) ∈
      (createAndPlayPattern eng st).2 ∧
    ∀ pat, (createAndPlayPattern eng st).1 = some pat →
      pat.source = combinedText (validPatternsOf st.patterns) ∧
      pat.gainVal = st.volume := by
  have hlen : ¬ (validPatternsOf st.patterns).length = 0 := by
    simpa using hv
  refine ⟨?_, ?_, ?_, ?_⟩
  · intro v hv1
    rw [hv1]
    simp [combinedText]
  · intro h2
    rw [combinedText, if_neg (by omega)]
  · cases hck : eng.compileOk (combinedText (validPatternsOf st.patterns)) <;>
      simp [createAndPlayPattern, hlen, hck]
  · intro pat hpat
    cases hck : eng.compileOk (combinedText (validPatternsOf st.patterns)) with
    | false =>
      simp [createAndPlayPattern, hlen, hck] at hpat
    | true =>
      simp [createAndPlayPattern, hlen, hck] at hpat
      exact ⟨by rw [← hpat], by rw [← hpat]⟩

/-- Witness for C4 at the initial state (two valid entries, all-ok engine):
the compiled source is the comma-joined text and the gain is the volume. -/
theorem createAndPlayPattern_combines_w :
    combinedText (validPatternsOf initialAppState.patterns) =
      String.intercalate ", "
        ((validPatternsOf initialAppState.patterns).map (fun p => p.pattern)) :=
  (createAndPlayPattern_combines engAllOk initialAppState
    (by with_unfolding_all decide)).2.1 (by with_unfolding_all decide)

/-- C8: invoked with an empty event list, regardless of the playing flag and
current time, the visualizer draws the no-data placeholder text once,
exactly 4 sample bars, and nothing else (no track, event or playhead
drawing). -/
theorem drawCustom_empty (playing : Bool) (t w h : ℚ) :
    (drawCustomVisualization playing [] t w h).countP isNoDataText = 1 ∧
    (drawCustomVisualization playing [] t w h).countP isSampleBar = 4 ∧
    ∀ c ∈ drawCustomVisualization playing [] t w h,
      isNoDataText c = true ∨ isSampleBar c = true := by
  refine ⟨rfl, rfl, ?_⟩
  intro c hc
  simp [drawCustomVisualization, List.range_succ] at hc
  rcases hc with h1 | h1 | h1 | h1 | h1 <;>
    simp [h1, isNoDataText, isSampleBar]

/-- The concrete event list of C9. -/
def c9Events : List PunchcardData :=
  [⟨0, "bd", none⟩, ⟨1, "sd", none⟩, ⟨1/2, "hh", none⟩]

/-- C9: with events at cycle times 0, 1 and 0.5, current time 0.05 and
`isPlaying` true, only the event at time 0 satisfies the active-highlight
predicate (distance below the 0.1-cycle window) and is drawn in the active
style; the events at times 1 and 0.5 are drawn dimmed. -/
theorem drawCustom_active_highlight :
    isActive true (1/20) 0 = true ∧
    isActive true (1/20) 1 = false ∧
    isActive true (1/20) (1/2) = false ∧
    (drawCustomVisualization true c9Events (1/20) 800 300).filter isEventRect =
      [DrawCmd.eventRect "bd" "#8b5cf6" 0 0 30 25 50 true,
       DrawCmd.eventRect "sd" "#06b6d4" 1 200 130 25 50 false,
       DrawCmd.eventRect "hh" "#10b981" (1/2) 100 230 25 50 false] := by
  with_unfolding_all decide

/-- Witness for C8 at concrete inputs: exactly 4 sample bars are drawn. -/
theorem drawCustom_empty_w :
    (drawCustomVisualization true [] 0 640 480).countP isSampleBar = 4 :=
  (drawCustom_empty true 0 640 480).2.1
